import Mathlib

/-!
Verification of the autonomous development loop of `autonomous_agent.py`
(class `AutonomousAgent`): the test runner `run_tests`, the prompt builders,
the iteration loop `autonomous_development_loop`, the report generator
`generate_final_report`, the scaffolder `setup_project_structure`, and the
entry point `main`.

The Python code is shallowly embedded: external effects (the pytest
subprocess, the assistant CLI, the filesystem) are supplied as explicit
parameters, and each run is summarised by a trace record.
-/

namespace AutonomousAgent

/-- The dictionary returned by `AutonomousAgent.run_tests`
(`{"passed": ..., "output": ..., "returncode": ...}`). -/
structure TestResult where
  passed : Bool
  output : String
  returncode : Int
deriving Repr, DecidableEq

/-- Outcome of the external `pytest` subprocess launched by `run_tests`:
it either completes with an exit code and captured stdout/stderr, exceeds
the 60-second timeout (`subprocess.TimeoutExpired`), or the invocation
raises some other exception (`except Exception as e`). -/
inductive ProcOutcome where
  | completed (returncode : Int) (stdout stderr : String)
  | timedOut
  | raised (msg : String)
deriving Repr, DecidableEq

/-- `AutonomousAgent.run_tests` (autonomous_agent.py lines 45-72):
classifies `passed = (returncode == 0)` and concatenates stdout and stderr;
a timeout and any other exception are converted to failed results with
sentinel returncode `-1`, never re-raised. -/
def run_tests : ProcOutcome → TestResult
  | .completed rc out err => ⟨rc == 0, out ++ err, rc⟩
  | .timedOut => ⟨false, "Tests timed out after 60 seconds", -1⟩
  | .raised e => ⟨false, "Error running tests: " ++ e, -1⟩

/-- `AutonomousAgent.send_to_claude` (lines 74-92): prints the prompt and
returns the assistant's textual reply.  The reply text is supplied by the
environment (`replies`, indexed by the call number); the reference code
always returns the fixed placeholder string. -/
def send_to_claude (replies : Nat → String) (callIdx : Nat) (prompt : String) : String :=
  replies callIdx

/-- The fixed reply of the stubbed bridge in the reference code. -/
def placeholder_reply : String :=
  "PLACEHOLDER: Claude would respond here"

/-- The initial prompt built in `autonomous_development_loop` (lines 109-125). -/
def initial_prompt (systemInstructions requirements : String) : String :=
  "\nAUTONOMOUS MODE: Implement the following requirements using TDD.\n\nSYSTEM INSTRUCTIONS:\n"
    ++ systemInstructions
    ++ "\n\nPROJECT REQUIREMENTS:\n"
    ++ requirements
    ++ "\n\nINSTRUCTIONS:\n1. Write tests FIRST in tests/ folder (import from src/, NO hardcoding)\n2. Implement code in src/ folder\n3. Make tests pass\n4. Report completion\n\nBegin implementation now.\n"

/-- The debug prompt built on a failed iteration (lines 144-157), from the
current iteration counter and the failed TestResult's output. -/
def debug_prompt (iteration : Nat) (testOutput : String) : String :=
  "\nAUTONOMOUS DEBUGGING - Iteration "
    ++ toString iteration
    ++ "\n\nTest results:\n"
    ++ testOutput
    ++ "\n\nINSTRUCTIONS:\n1. Analyze the error\n2. Identify the bug in src/ code\n3. Fix the code (DO NOT modify tests)\n4. The tests will run automatically next\n\nFix the issue now.\n"

/-- The `'='*80` separator line used by the report. -/
def sepLine : String :=
  String.mk (List.replicate 80 '=')

/-- The report text assembled by `generate_final_report` (lines 179-202)
from the final iteration counter, the final TestResult's output and the
captured stdout of the coverage run. -/
def report_text (iteration : Nat) (testOutput coverageStdout : String) : String :=
  "\n" ++ sepLine
    ++ "\n✅ AUTONOMOUS DEVELOPMENT COMPLETE\n"
    ++ sepLine
    ++ "\n\nTotal iterations: "
    ++ toString iteration
    ++ "\nFinal status: ALL TESTS PASSING ✅\n\nTest Results:\n"
    ++ testOutput
    ++ "\n\nCoverage Report:\n"
    ++ coverageStdout
    ++ "\n\nTo verify:\n1. Review tests in tests/ folder\n2. Run: pytest tests/ -v\n3. Check: All tests pass\n\nNext steps:\n- Review code in src/ folder\n- Review tests to verify requirements\n- Deploy if satisfied\n"

/-- `sub` occurs as a contiguous substring of `s`. -/
def containsStr (s sub : String) : Prop :=
  ∃ a b : String, s = a ++ (sub ++ b)

/-- Summary of one call of `autonomous_development_loop`'s while loop
(lines 130-166): the boolean it returns, the final value of
`self.iteration`, how many times `run_tests` ran, the counter value after
each of the loop's `self.iteration += 1` increments, every prompt passed to
`send_to_claude` (initial prompt included), and the report written by
`generate_final_report` (`none` when it never ran). -/
structure LoopResult where
  success : Bool
  iteration : Nat
  testsRun : Nat
  counters : List Nat
  prompts : List String
  report : Option String
deriving Repr, DecidableEq

/-- The while loop of `autonomous_development_loop` (lines 130-166),
translated by structural recursion on `remaining = max_iterations -
self.iteration` (the guard `self.iteration < self.max_iterations` holds
exactly when `remaining` is nonzero).  Each pass increments the counter,
runs the tests — the `env` parameter gives the subprocess outcome of each
`run_tests` call in order — and either generates the final report and
returns `True`, or builds the debug prompt, sends it (discarding the
reply, as the code does) and continues; when the guard fails the loop
falls through to `return False`. -/
def development_loop (env : Nat → ProcOutcome) (replies : Nat → String)
    (coverageStdout : String) :
    Nat → Nat → Nat → Nat → List Nat → List String → LoopResult
  | 0, iteration, testsRun, _sends, counters, prompts =>
      ⟨false, iteration, testsRun, counters, prompts, none⟩
  | remaining + 1, iteration, testsRun, sends, counters, prompts =>
      let iteration' := iteration + 1
      let tr := run_tests (env testsRun)
      let testsRun' := testsRun + 1
      let counters' := counters ++ [iteration']
      if tr.passed then
        ⟨true, iteration', testsRun', counters', prompts,
          some (report_text iteration' tr.output coverageStdout)⟩
      else
        let p := debug_prompt iteration' tr.output
        let _reply := send_to_claude replies sends p
        development_loop env replies coverageStdout
          remaining iteration' testsRun' (sends + 1) counters' (prompts ++ [p])

/-- The inputs of one run: whether `PROJECT_REQUIREMENTS.md` exists and its
text, the text of `SYSTEM_INSTRUCTIONS.md`, the outcome of each pytest
subprocess in order, the assistant's reply to each `send_to_claude` call,
the stdout of the coverage run, and `self.max_iterations` (50 in
`__init__`, line 24). -/
structure RunConfig where
  requirementsPresent : Bool
  requirements : String
  systemInstructions : String
  env : Nat → ProcOutcome
  replies : Nat → String
  coverageStdout : String
  maxIterations : Nat

/-- The default `self.max_iterations` set in `__init__` (line 24). -/
def default_max_iterations : Nat := 50

/-- `AutonomousAgent.autonomous_development_loop` (lines 94-166): scaffold,
read requirements — raising `FileNotFoundError` when the file is absent
(lines 30-31), which propagates — then send the initial prompt (call 0,
reply discarded) and enter the while loop with `self.iteration = 0`. -/
def autonomous_development_loop (cfg : RunConfig) : Except String LoopResult :=
  if cfg.requirementsPresent then
    let initial := initial_prompt cfg.systemInstructions cfg.requirements
    let _reply := send_to_claude cfg.replies 0 initial
    Except.ok (development_loop cfg.env cfg.replies cfg.coverageStdout
      cfg.maxIterations 0 0 1 [] [initial])
  else
    Except.error "PROJECT_REQUIREMENTS.md not found"

/-- Observable outcome of `main` (lines 213-233): the process exit code,
how many test executions happened, the report written (if any), and the
message of an uncaught exception (printed before exiting 1). -/
structure RunTrace where
  exitCode : Nat
  testsRun : Nat
  report : Option String
  errorMsg : Option String
deriving Repr, DecidableEq

/-- `main` (lines 213-233): runs the loop, exits 0 on `True` and 1 on
`False`; any exception is caught, printed, and the process exits 1. -/
def main_run (cfg : RunConfig) : RunTrace :=
  match autonomous_development_loop cfg with
  | .ok r => ⟨if r.success then 0 else 1, r.testsRun, r.report, none⟩
  | .error e => ⟨1, 0, none, some e⟩

/-! ### Filesystem model for `setup_project_structure` -/

/-- The filesystem entries `setup_project_structure` touches: the set of
existing directory paths and the set of existing regular-file paths
(relative to the project directory). -/
structure FS where
  dirs : Finset String
  files : Finset String
deriving DecidableEq

/-- `Path.mkdir(exist_ok=True)`: creates the directory if missing, no-op if
it already exists as a directory, raises `FileExistsError` (the `false`
flag) if the path exists as a regular file.  The returned state is the
filesystem after the call (unchanged when it raises). -/
def mkdir_exist_ok (fs : FS) (p : String) : FS × Bool :=
  if p ∈ fs.files then (fs, false)
  else (⟨insert p fs.dirs, fs.files⟩, true)

/-- `Path.touch()`: creates the file if missing, no-op on the entry set if
it already exists as a file, raises (the `false` flag) if the path is a
directory. -/
def touch (fs : FS) (p : String) : FS × Bool :=
  if p ∈ fs.dirs then (fs, false)
  else (⟨fs.dirs, insert p fs.files⟩, true)

/-- `AutonomousAgent.setup_project_structure` (lines 36-43): `mkdir` the
`src` and `tests` directories with `exist_ok=True`, then `touch` the two
`__init__.py` marker files.  A raised filesystem error aborts the sequence
(the `false` flag) but keeps the changes already made. -/
def setup_project_structure (fs : FS) : FS × Bool :=
  let r1 := mkdir_exist_ok fs "src"
  if r1.2 then
    let r2 := mkdir_exist_ok r1.1 "tests"
    if r2.2 then
      let r3 := touch r2.1 "src/__init__.py"
      if r3.2 then
        touch r3.1 "tests/__init__.py"
      else r3
    else r2
  else r1

/-! ### Loop lemmas -/

/-- Unfolding the while loop one pass when the tests pass: the loop stops,
writes the report and returns `True`. -/
theorem development_loop_succ_pass (env : Nat → ProcOutcome) (replies : Nat → String)
    (cov : String) (remaining iteration testsRun sends : Nat) (counters : List Nat)
    (prompts : List String) (h : (run_tests (env testsRun)).passed = true) :
    development_loop env replies cov (remaining + 1) iteration testsRun sends counters
        prompts =
      ⟨true, iteration + 1, testsRun + 1, counters ++ [iteration + 1], prompts,
        some (report_text (iteration + 1) (run_tests (env testsRun)).output cov)⟩ := by
  simp [development_loop, h]

/-- Unfolding the while loop one pass when the tests fail: the debug prompt
is sent and the loop continues with the incremented counter. -/
theorem development_loop_succ_fail (env : Nat → ProcOutcome) (replies : Nat → String)
    (cov : String) (remaining iteration testsRun sends : Nat) (counters : List Nat)
    (prompts : List String) (h : (run_tests (env testsRun)).passed = false) :
    development_loop env replies cov (remaining + 1) iteration testsRun sends counters
        prompts =
      development_loop env replies cov remaining (iteration + 1) (testsRun + 1)
        (sends + 1) (counters ++ [iteration + 1])
        (prompts ++ [debug_prompt (iteration + 1) (run_tests (env testsRun)).output]) := by
  simp [development_loop, h]

/-- Bounds and bookkeeping of the while loop: the counter only grows, by at
most `remaining`; each pass runs exactly one test; and the recorded counter
values are the consecutive integers following the entry value. -/
theorem development_loop_bounds (env : Nat → ProcOutcome) (replies : Nat → String)
    (cov : String) :
    ∀ remaining iteration testsRun sends counters prompts,
      iteration ≤
          (development_loop env replies cov remaining iteration testsRun sends
            counters prompts).iteration ∧
        (development_loop env replies cov remaining iteration testsRun sends
            counters prompts).iteration ≤ iteration + remaining ∧
        (development_loop env replies cov remaining iteration testsRun sends
              counters prompts).iteration + testsRun =
          (development_loop env replies cov remaining iteration testsRun sends
              counters prompts).testsRun + iteration ∧
        (development_loop env replies cov remaining iteration testsRun sends
            counters prompts).counters =
          counters ++ List.range' (iteration + 1)
            ((development_loop env replies cov remaining iteration testsRun sends
                counters prompts).iteration - iteration) 1 := by
  intro remaining
  induction remaining with
  | zero =>
      intro iteration testsRun sends counters prompts
      simp [development_loop, Nat.add_comm]
  | succ n ih =>
      intro iteration testsRun sends counters prompts
      cases h : (run_tests (env testsRun)).passed with
      | true =>
          rw [development_loop_succ_pass env replies cov n iteration testsRun sends
            counters prompts h]
          have hsub1 : iteration + 1 - iteration = 1 := by omega
          refine ⟨Nat.le_succ _, by simp; try omega, by simp; try omega, ?_⟩
          simp [hsub1, List.range'_one]
      | false =>
          rw [development_loop_succ_fail env replies cov n iteration testsRun sends
            counters prompts h]
          obtain ⟨h1, h2, h3, h4⟩ :=
            ih (iteration + 1) (testsRun + 1) (sends + 1) (counters ++ [iteration + 1])
              (prompts ++ [debug_prompt (iteration + 1) (run_tests (env testsRun)).output])
          refine ⟨by omega, by omega, by omega, ?_⟩
          rw [h4]
          have hsub :
              (development_loop env replies cov n (iteration + 1) (testsRun + 1) (sends + 1)
                    (counters ++ [iteration + 1])
                    (prompts ++
                      [debug_prompt (iteration + 1)
                          (run_tests (env testsRun)).output])).iteration - iteration =
                ((development_loop env replies cov n (iteration + 1) (testsRun + 1) (sends + 1)
                      (counters ++ [iteration + 1])
                      (prompts ++
                        [debug_prompt (iteration + 1)
                            (run_tests (env testsRun)).output])).iteration -
                    (iteration + 1)) + 1 := by omega
          rw [hsub, List.range'_succ]
          simp

/-- When every test execution fails, the while loop exhausts `remaining`
passes: the counter and the test count each grow by `remaining`, one debug
prompt is sent per failed pass, and no report is produced. -/
theorem development_loop_all_fail (env : Nat → ProcOutcome) (replies : Nat → String)
    (cov : String) (hfail : ∀ k, (run_tests (env k)).passed = false) :
    ∀ remaining iteration testsRun sends counters prompts,
      development_loop env replies cov remaining iteration testsRun sends counters
          prompts =
        ⟨false, iteration + remaining, testsRun + remaining,
          counters ++ List.range' (iteration + 1) remaining 1,
          prompts ++ (List.range remaining).map
            (fun j => debug_prompt (iteration + 1 + j) (run_tests (env (testsRun + j))).output),
          none⟩ := by
  intro remaining
  induction remaining with
  | zero =>
      intro iteration testsRun sends counters prompts
      simp [development_loop]
  | succ n ih =>
      intro iteration testsRun sends counters prompts
      rw [development_loop_succ_fail env replies cov n iteration testsRun sends counters
        prompts (hfail testsRun)]
      rw [ih]
      simp only [LoopResult.mk.injEq]
      refine ⟨trivial, by omega, by omega, ?_, ?_, trivial⟩
      · rw [List.range'_succ]
        simp
      · rw [List.range_succ_eq_map, List.map_cons, List.map_map]
        simp only [Nat.add_zero, List.append_assoc, List.singleton_append]
        congr 1
        congr 1
        apply List.map_congr_left
        intro j hj
        simp only [Function.comp_apply]
        have h1 : iteration + 1 + Nat.succ j = iteration + 1 + 1 + j := by omega
        have h2 : testsRun + Nat.succ j = testsRun + 1 + j := by omega
        rw [h1, h2]

/-- The loop's behaviour does not depend on the assistant's replies: the
reply of every `send_to_claude` call is discarded. -/
theorem development_loop_replies_irrel (env : Nat → ProcOutcome)
    (replies₁ replies₂ : Nat → String) (cov : String) :
    ∀ remaining iteration testsRun sends counters prompts,
      development_loop env replies₁ cov remaining iteration testsRun sends counters
          prompts =
        development_loop env replies₂ cov remaining iteration testsRun sends counters
          prompts := by
  intro remaining
  induction remaining with
  | zero =>
      intro iteration testsRun sends counters prompts
      simp [development_loop]
  | succ n ih =>
      intro iteration testsRun sends counters prompts
      cases h : (run_tests (env testsRun)).passed with
      | true =>
          rw [development_loop_succ_pass env replies₁ cov n iteration testsRun sends
            counters prompts h]
          rw [development_loop_succ_pass env replies₂ cov n iteration testsRun sends
            counters prompts h]
      | false =>
          rw [development_loop_succ_fail env replies₁ cov n iteration testsRun sends
            counters prompts h]
          rw [development_loop_succ_fail env replies₂ cov n iteration testsRun sends
            counters prompts h]
          exact ih _ _ _ _ _

/-- The completion report embeds the final iteration counter after the text
`iterations: `. -/
theorem report_contains_iteration_count (n : Nat) (out cov : String) :
    containsStr (report_text n out cov) ("iterations: " ++ toString n) := by
  refine ⟨"\n" ++ sepLine ++ "\n✅ AUTONOMOUS DEVELOPMENT COMPLETE\n" ++ sepLine
      ++ "\n\nTotal ",
    "\nFinal status: ALL TESTS PASSING ✅\n\nTest Results:\n" ++ out
      ++ "\n\nCoverage Report:\n" ++ cov
      ++ "\n\nTo verify:\n1. Review tests in tests/ folder\n2. Run: pytest tests/ -v\n3. Check: All tests pass\n\nNext steps:\n- Review code in src/ folder\n- Review tests to verify requirements\n- Deploy if satisfied\n",
    ?_⟩
  have hsplit : ∀ t : String,
      ("\n\nTotal iterations: " : String) ++ t = "\n\nTotal " ++ ("iterations: " ++ t) := by
    intro t
    have hm : ("\n\nTotal iterations: " : String) = "\n\nTotal " ++ "iterations: " := by
      decide
    rw [hm, String.append_assoc]
  unfold report_text
  simp only [String.append_assoc]
  rw [hsplit]

/-- The completion report embeds the final TestResult's output after the
header `Test Results:`. -/
theorem report_contains_test_output (n : Nat) (out cov : String) :
    containsStr (report_text n out cov) out := by
  refine ⟨"\n" ++ sepLine ++ "\n✅ AUTONOMOUS DEVELOPMENT COMPLETE\n" ++ sepLine
      ++ "\n\nTotal iterations: " ++ toString n
      ++ "\nFinal status: ALL TESTS PASSING ✅\n\nTest Results:\n",
    "\n\nCoverage Report:\n" ++ cov
      ++ "\n\nTo verify:\n1. Review tests in tests/ folder\n2. Run: pytest tests/ -v\n3. Check: All tests pass\n\nNext steps:\n- Review code in src/ folder\n- Review tests to verify requirements\n- Deploy if satisfied\n",
    ?_⟩
  unfold report_text
  simp only [String.append_assoc]

/-- Scaffolding is idempotent on the filesystem state: a second call finds
every entry the first call created and changes nothing, whether the first
call succeeded or raised part-way through. -/
theorem setup_project_structure_idem (fs : FS) :
    setup_project_structure (setup_project_structure fs).1 = setup_project_structure fs := by
  obtain ⟨D, F⟩ := fs
  by_cases h1 : ("src" : String) ∈ F
  · simp [setup_project_structure, mkdir_exist_ok, h1]
  · by_cases h2 : ("tests" : String) ∈ F
    · simp [setup_project_structure, mkdir_exist_ok, touch, h1, h2, Finset.insert_idem]
    · by_cases h3 : ("src/__init__.py" : String) ∈ insert "tests" (insert "src" D)
      · have h3' : ("src/__init__.py" : String) ∈ D := by
          simpa using h3
        simp [setup_project_structure, mkdir_exist_ok, touch, h1, h2, h3',
          Finset.Insert.comm, Finset.insert_idem]
      · have h3' : ("src/__init__.py" : String) ∉ D := by
          intro hmem
          exact h3 (Finset.mem_insert_of_mem (Finset.mem_insert_of_mem hmem))
        by_cases h4 : ("tests/__init__.py" : String) ∈ insert "tests" (insert "src" D)
        · have h4' : ("tests/__init__.py" : String) ∈ D := by
            simpa using h4
          simp [setup_project_structure, mkdir_exist_ok, touch, h1, h2, h3', h4',
            Finset.Insert.comm, Finset.insert_idem]
        · have h4' : ("tests/__init__.py" : String) ∉ D := by
            intro hmem
            exact h4 (Finset.mem_insert_of_mem (Finset.mem_insert_of_mem hmem))
          simp [setup_project_structure, mkdir_exist_ok, touch, h1, h2, h3', h4',
            Finset.Insert.comm, Finset.insert_idem]

/-! ### Concrete run configurations used by witnesses and counterexamples -/

/-- A run whose test command always exits 1, with an iteration cap of 3. -/
def cfgAlwaysFail : RunConfig :=
  ⟨true, "REQ", "SYS", fun _ => .completed 1 "1 failed" "", fun _ => placeholder_reply,
    "cov", 3⟩

/-- A run whose test command always exits 0, with the default cap of 50. -/
def cfgFirstPass : RunConfig :=
  ⟨true, "REQ", "SYS", fun _ => .completed 0 "3 passed" "", fun _ => placeholder_reply,
    "cov95", 50⟩

/-- A run with iteration cap 1 whose only test run fails. -/
def cfgCapOne : RunConfig :=
  ⟨true, "R", "S", fun _ => .completed 1 "boom" "", fun _ => placeholder_reply, "c", 1⟩

/-- A run whose requirements file is absent. -/
def cfgNoReq : RunConfig :=
  ⟨false, "", "", fun _ => .timedOut, fun _ => placeholder_reply, "", 50⟩

/-- Entering the loop: when the requirements file exists,
`autonomous_development_loop` sends the initial prompt and runs the while
loop from counter 0. -/
theorem autonomous_development_loop_eq (cfg : RunConfig)
    (hreq : cfg.requirementsPresent = true) :
    autonomous_development_loop cfg =
      Except.ok (development_loop cfg.env cfg.replies cfg.coverageStdout
        cfg.maxIterations 0 0 1 []
        [initial_prompt cfg.systemInstructions cfg.requirements]) := by
  unfold autonomous_development_loop
  rw [hreq]
  rfl

/-- Every test outcome whose exit code is nonzero (or that raises) yields a
failed TestResult. -/
theorem run_tests_all_fail (env : Nat → ProcOutcome)
    (hfail : ∀ k rc out err, env k = .completed rc out err → rc ≠ 0) :
    ∀ k, (run_tests (env k)).passed = false := by
  intro k
  cases h : env k with
  | completed rc out err =>
      have hrc : rc ≠ 0 := hfail k rc out err h
      simp [run_tests, hrc]
  | timedOut => simp [run_tests]
  | raised e => simp [run_tests]

/-! ### Claims -/

/-- C1: when the test command never exits 0 and the iteration cap is N, the
run performs exactly N test executions, the process exits with code 1, and
no report is written (`generate_final_report` never runs). -/
theorem spec_C1 (cfg : RunConfig) (hreq : cfg.requirementsPresent = true)
    (hfail : ∀ k rc out err, cfg.env k = .completed rc out err → rc ≠ 0) :
    main_run cfg = ⟨1, cfg.maxIterations, none, none⟩ := by
  have hall : ∀ k, (run_tests (cfg.env k)).passed = false := run_tests_all_fail cfg.env hfail
  have hstep := autonomous_development_loop_eq cfg hreq
  rw [development_loop_all_fail cfg.env cfg.replies cfg.coverageStdout hall] at hstep
  unfold main_run
  rw [hstep]
  simp

/-- Witness for C1 at the cap-3 always-failing configuration. -/
theorem spec_C1_witness : main_run cfgAlwaysFail = ⟨1, 3, none, none⟩ :=
  spec_C1 cfgAlwaysFail rfl
    (by
      intro k rc out err h
      injection h with h1 h2 h3
      subst h1
      decide)

/-- C2: when the test command exits 0 on the first iteration, the loop
returns `True` after exactly one iteration and one test execution, and the
written report contains the iteration count and the captured test output. -/
theorem spec_C2 (cfg : RunConfig) (hreq : cfg.requirementsPresent = true)
    (hmax : 0 < cfg.maxIterations) (sout serr : String)
    (henv : cfg.env 0 = .completed 0 sout serr) :
    autonomous_development_loop cfg =
        Except.ok ⟨true, 1, 1, [1],
          [initial_prompt cfg.systemInstructions cfg.requirements],
          some (report_text 1 (sout ++ serr) cfg.coverageStdout)⟩ ∧
      containsStr (report_text 1 (sout ++ serr) cfg.coverageStdout)
        ("iterations: " ++ toString 1) ∧
      containsStr (report_text 1 (sout ++ serr) cfg.coverageStdout) (sout ++ serr) := by
  have hpass : (run_tests (cfg.env 0)).passed = true := by
    rw [henv]
    simp [run_tests]
  obtain ⟨m, hm⟩ : ∃ m, cfg.maxIterations = m + 1 := ⟨cfg.maxIterations - 1, by omega⟩
  have hstep := autonomous_development_loop_eq cfg hreq
  rw [hm] at hstep
  rw [development_loop_succ_pass cfg.env cfg.replies cfg.coverageStdout m 0 0 1 []
    [initial_prompt cfg.systemInstructions cfg.requirements] hpass] at hstep
  rw [henv] at hstep
  refine ⟨?_, report_contains_iteration_count 1 _ _, report_contains_test_output 1 _ _⟩
  rw [hstep]
  simp [run_tests]

/-- Witness for C2 at the always-passing configuration. -/
theorem spec_C2_witness :
    (autonomous_development_loop cfgFirstPass =
        Except.ok ⟨true, 1, 1, [1], [initial_prompt "SYS" "REQ"],
          some (report_text 1 ("3 passed" ++ "") "cov95")⟩ ∧
      containsStr (report_text 1 ("3 passed" ++ "") "cov95")
        ("iterations: " ++ toString 1) ∧
      containsStr (report_text 1 ("3 passed" ++ "") "cov95") ("3 passed" ++ "")) :=
  spec_C2 cfgFirstPass rfl (by decide) "3 passed" "" rfl

/-- C3 counterexample: with cap 1 and a failing test command, the single
pass has counter 1 = max, the test fails, and the loop still sends a debug
prompt before returning failure — the run's prompt list is the initial
prompt followed by a debug prompt, not the initial prompt alone as the
claim predicts for this input. -/
theorem spec_C3_counterexample :
    autonomous_development_loop cfgCapOne =
        Except.ok ⟨false, 1, 1, [1],
          [initial_prompt "S" "R", debug_prompt 1 ("boom" ++ "")], none⟩ ∧
      autonomous_development_loop cfgCapOne ≠
        Except.ok ⟨false, 1, 1, [1], [initial_prompt "S" "R"], none⟩ := by
  constructor
  · rfl
  · intro h
    rw [show autonomous_development_loop cfgCapOne =
        Except.ok ⟨false, 1, 1, [1],
          [initial_prompt "S" "R", debug_prompt 1 ("boom" ++ "")], none⟩ from rfl] at h
    simp at h

/-- C3 amended: after every failed test run a debug prompt built from that
TestResult's output is sent — including the pass where the counter equals
the configured maximum; when the cap is reached without a pass the loop
returns failure and writes no report. -/
theorem spec_C3 (cfg : RunConfig) (hreq : cfg.requirementsPresent = true)
    (hfail : ∀ k, (run_tests (cfg.env k)).passed = false) :
    autonomous_development_loop cfg =
      Except.ok ⟨false, cfg.maxIterations, cfg.maxIterations,
        List.range' 1 cfg.maxIterations 1,
        initial_prompt cfg.systemInstructions cfg.requirements ::
          (List.range cfg.maxIterations).map
            (fun j => debug_prompt (j + 1) (run_tests (cfg.env j)).output),
        none⟩ := by
  have hstep := autonomous_development_loop_eq cfg hreq
  rw [development_loop_all_fail cfg.env cfg.replies cfg.coverageStdout hfail] at hstep
  rw [hstep]
  simp only [Except.ok.injEq, LoopResult.mk.injEq, Nat.zero_add, List.nil_append,
    List.singleton_append]
  refine ⟨trivial, trivial, trivial, trivial, ?_, trivial⟩
  refine congrArg (List.cons _) ?_
  apply List.map_congr_left
  intro j hj
  have h1 : 0 + 1 + j = j + 1 := by omega
  rw [h1]

/-- Witness for C3 (amended) at the cap-1 failing configuration. -/
theorem spec_C3_witness :
    autonomous_development_loop cfgCapOne =
      Except.ok ⟨false, 1, 1, List.range' 1 1 1,
        initial_prompt "S" "R" ::
          (List.range 1).map
            (fun j => debug_prompt (j + 1) (run_tests (cfgCapOne.env j)).output),
        none⟩ :=
  spec_C3 cfgCapOne rfl (by intro k; rfl)

/-- C4: a timed-out test process does not raise; `run_tests` returns a
failed TestResult whose output notes the timeout and whose exit code is the
negative sentinel. -/
theorem spec_C4 :
    (run_tests .timedOut).passed = false ∧
      containsStr (run_tests .timedOut).output "timed out" ∧
      (run_tests .timedOut).returncode < 0 := by
  refine ⟨rfl, ⟨"Tests ", " after 60 seconds", by decide⟩, by decide⟩

/-- C5: any other invocation error is not propagated; `run_tests` returns a
failed TestResult with the exception text embedded in the output. -/
theorem spec_C5 (e : String) :
    (run_tests (.raised e)).passed = false ∧
      containsStr (run_tests (.raised e)).output e ∧
      (run_tests (.raised e)).returncode = -1 := by
  refine ⟨rfl, ⟨"Error running tests: ", "", ?_⟩, rfl⟩
  show ("Error running tests: " : String) ++ e = "Error running tests: " ++ (e ++ "")
  rw [String.append_empty]

/-- C6: with the requirements file absent the run aborts before any test
execution: the `FileNotFoundError` propagates to `main`, no report is
written, and the process exits with code 1. -/
theorem spec_C6 (cfg : RunConfig) (hreq : cfg.requirementsPresent = false) :
    main_run cfg = ⟨1, 0, none, some "PROJECT_REQUIREMENTS.md not found"⟩ := by
  unfold main_run autonomous_development_loop
  rw [hreq]
  rfl

/-- Witness for C6 at the missing-requirements configuration. -/
theorem spec_C6_witness :
    main_run cfgNoReq = ⟨1, 0, none, some "PROJECT_REQUIREMENTS.md not found"⟩ :=
  spec_C6 cfgNoReq rfl

/-- C7: starting from counter 0, the loop's counter is incremented by
exactly one per pass — the recorded values are the consecutive integers
1, 2, ..., one per test execution — and never exceeds the configured
maximum. -/
theorem spec_C7 (env : Nat → ProcOutcome) (replies : Nat → String) (cov : String)
    (maxIter : Nat) (prompts : List String) (r : LoopResult)
    (h : development_loop env replies cov maxIter 0 0 1 [] prompts = r) :
    r.iteration ≤ maxIter ∧ r.iteration = r.testsRun ∧
      r.counters = List.range' 1 r.iteration 1 := by
  obtain ⟨h1, h2, h3, h4⟩ :=
    development_loop_bounds env replies cov maxIter 0 0 1 [] prompts
  rw [h] at h1 h2 h3 h4
  refine ⟨by omega, by omega, ?_⟩
  simpa using h4

/-- Witness for C7 at a cap-2 always-failing loop. -/
theorem spec_C7_witness :
    (⟨false, 2, 2, [1, 2],
        ["i", debug_prompt 1 ("f" ++ ""), debug_prompt 2 ("f" ++ "")], none⟩ :
        LoopResult).iteration ≤ 2 ∧
      (⟨false, 2, 2, [1, 2],
          ["i", debug_prompt 1 ("f" ++ ""), debug_prompt 2 ("f" ++ "")], none⟩ :
          LoopResult).iteration =
        (⟨false, 2, 2, [1, 2],
            ["i", debug_prompt 1 ("f" ++ ""), debug_prompt 2 ("f" ++ "")], none⟩ :
            LoopResult).testsRun ∧
      (⟨false, 2, 2, [1, 2],
          ["i", debug_prompt 1 ("f" ++ ""), debug_prompt 2 ("f" ++ "")], none⟩ :
          LoopResult).counters =
        List.range' 1
          (⟨false, 2, 2, [1, 2],
              ["i", debug_prompt 1 ("f" ++ ""), debug_prompt 2 ("f" ++ "")], none⟩ :
              LoopResult).iteration 1 :=
  spec_C7 (fun _ => .completed 1 "f" "") (fun _ => placeholder_reply) "cov" 2 ["i"]
    ⟨false, 2, 2, [1, 2],
      ["i", debug_prompt 1 ("f" ++ ""), debug_prompt 2 ("f" ++ "")], none⟩ rfl

/-- C8: scaffolding is idempotent — a second call leaves exactly the
filesystem state of the first call, from every starting state; and on a
state where the layout already exists (both directories and both marker
files present, with no file/directory name clashes) a call changes
nothing. -/
theorem spec_C8 (fs g : FS)
    (hg : "src" ∈ g.dirs ∧ "tests" ∈ g.dirs ∧ "src/__init__.py" ∈ g.files ∧
      "tests/__init__.py" ∈ g.files ∧ "src" ∉ g.files ∧ "tests" ∉ g.files ∧
      "src/__init__.py" ∉ g.dirs ∧ "tests/__init__.py" ∉ g.dirs) :
    setup_project_structure (setup_project_structure fs).1 = setup_project_structure fs ∧
      setup_project_structure g = (g, true) := by
  obtain ⟨hg1, hg2, hg3, hg4, hg5, hg6, hg7, hg8⟩ := hg
  refine ⟨setup_project_structure_idem fs, ?_⟩
  obtain ⟨D, F⟩ := g
  simp only at hg1 hg2 hg3 hg4 hg5 hg6 hg7 hg8
  simp [setup_project_structure, mkdir_exist_ok, touch, hg5, hg6, hg7, hg8,
    Finset.insert_eq_self.mpr hg1, Finset.insert_eq_self.mpr hg2,
    Finset.insert_eq_self.mpr hg3, Finset.insert_eq_self.mpr hg4]

/-- Witness for C8: scaffolding an empty filesystem, and scaffolding a
state that already has the full layout. -/
theorem spec_C8_witness :
    setup_project_structure (setup_project_structure ⟨∅, ∅⟩).1 =
        setup_project_structure ⟨∅, ∅⟩ ∧
      setup_project_structure
          ⟨{"src", "tests"}, {"src/__init__.py", "tests/__init__.py"}⟩ =
        (⟨{"src", "tests"}, {"src/__init__.py", "tests/__init__.py"}⟩, true) :=
  spec_C8 ⟨∅, ∅⟩ ⟨{"src", "tests"}, {"src/__init__.py", "tests/__init__.py"}⟩
    (by decide)

/-- C9: the loop's control flow is independent of the assistant's replies —
two runs differing only in the reply texts returned by `send_to_claude`
produce identical loop traces (iterations, test executions, prompts,
outcome, report) and identical process outcomes, because every reply is
discarded. -/
theorem spec_C9 (cfg : RunConfig) (replies₂ : Nat → String) :
    autonomous_development_loop cfg =
        autonomous_development_loop
          ⟨cfg.requirementsPresent, cfg.requirements, cfg.systemInstructions, cfg.env,
            replies₂, cfg.coverageStdout, cfg.maxIterations⟩ ∧
      main_run cfg =
        main_run
          ⟨cfg.requirementsPresent, cfg.requirements, cfg.systemInstructions, cfg.env,
            replies₂, cfg.coverageStdout, cfg.maxIterations⟩ := by
  have hloop : autonomous_development_loop cfg =
      autonomous_development_loop
        ⟨cfg.requirementsPresent, cfg.requirements, cfg.systemInstructions, cfg.env,
          replies₂, cfg.coverageStdout, cfg.maxIterations⟩ := by
    unfold autonomous_development_loop
    simp only
    split
    · exact congrArg Except.ok
        (development_loop_replies_irrel cfg.env cfg.replies replies₂ cfg.coverageStdout
          cfg.maxIterations 0 0 1 []
          [initial_prompt cfg.systemInstructions cfg.requirements])
    · rfl
  refine ⟨hloop, ?_⟩
  unfold main_run
  rw [hloop]

/-- C10: the timeout branch and the generic-exception branch of `run_tests`
return the same sentinel returncode -1 and the same `passed` flag, so the
two failure kinds are indistinguishable by the returncode field; only the
output text differs. -/
theorem spec_C10 (e : String) :
    (run_tests .timedOut).returncode = (run_tests (.raised e)).returncode ∧
      (run_tests .timedOut).returncode = -1 ∧
      (run_tests .timedOut).passed = (run_tests (.raised e)).passed ∧
      (run_tests .timedOut).output ≠ (run_tests (.raised e)).output := by
  refine ⟨rfl, rfl, rfl, ?_⟩
  intro h
  have h2 := congrArg String.data h
  simp only [run_tests] at h2
  rw [String.data_append] at h2
  have h4 : ("Error running tests: " : String).data =
      'E' :: ("rror running tests: " : String).data := rfl
  rw [h4] at h2
  simp at h2

end AutonomousAgent
